import Mathlib

/-!
Verification development for the training driver `ootd/train.py` of the
OOTDiffusion training repository.  The definitions below are a shallow
embedding, translated function by function from the Python source; the
theorems settle the specification's claims about that source.
-/

namespace OOTDTrain

/-- Nat version of Python's `math.ceil(a / b)` for positive `b`. -/
def ceilDiv (a b : Nat) : Nat := (a + b - 1) / b

theorem ceilDiv_zero (b : Nat) : ceilDiv 0 b = 0 := by
  unfold ceilDiv
  rcases Nat.eq_zero_or_pos b with h | h
  · subst h; rfl
  · exact Nat.div_eq_of_lt (by omega)

theorem ceilDiv_eq_one (a b : Nat) (h1 : 1 ≤ a) (h2 : a ≤ b) :
    ceilDiv a b = 1 := by
  unfold ceilDiv
  apply Nat.div_eq_of_lt_le
  · omega
  · omega

theorem ceilDiv_sub (a b : Nat) (hb : 0 < b) (h : b < a) :
    ceilDiv a b = ceilDiv (a - b) b + 1 := by
  unfold ceilDiv
  have h1 : a + b - 1 = (a - b + b - 1) + b := by omega
  rw [h1, Nat.add_div_right _ hb]

theorem le_ceilDiv_mul (a b : Nat) (hb : 0 < b) : a ≤ ceilDiv a b * b := by
  unfold ceilDiv
  have hd := Nat.div_add_mod (a + b - 1) b
  have hm : (a + b - 1) % b < b := Nat.mod_lt _ hb
  have hq : (a + b - 1) / b * b = b * ((a + b - 1) / b) := Nat.mul_comm _ _
  omega

theorem ceilDiv_le_self (a b : Nat) (hb : 1 ≤ b) : ceilDiv a b ≤ a := by
  unfold ceilDiv
  have h1 : a + b - 1 ≤ a * b + (b - 1) := by
    have := Nat.le_mul_of_pos_right a hb
    omega
  have h2 : (a * b + (b - 1)) / b = a + (b - 1) / b := by
    rw [Nat.mul_comm a b, Nat.mul_add_div hb]
  have h3 : (b - 1) / b = 0 := Nat.div_eq_of_lt (by omega)
  calc (a + b - 1) / b ≤ (a * b + (b - 1)) / b := Nat.div_le_div_right h1
    _ = a := by rw [h2, h3]; omega

/-- The configuration fields of `main` that drive the loop structure
(`train.py` parameters `max_train_steps`, `gradient_accumulation_steps`,
`checkpointing_steps`, plus `len(train_dataloader)`). -/
structure TrainConfig where
  dataloaderLen : Nat
  gradientAccumulationSteps : Nat
  maxTrainSteps : Nat
  checkpointingSteps : Nat
deriving DecidableEq, Repr

/-- `num_update_steps_per_epoch = math.ceil(len(train_dataloader) / gradient_accumulation_steps)`
(train.py line 364). -/
def numUpdateStepsPerEpoch (cfg : TrainConfig) : Nat :=
  ceilDiv cfg.dataloaderLen cfg.gradientAccumulationSteps

/-- `num_train_epochs = math.ceil(max_train_steps / num_update_steps_per_epoch)`
(train.py line 366). -/
def numTrainEpochs (cfg : TrainConfig) : Nat :=
  ceilDiv cfg.maxTrainSteps (numUpdateStepsPerEpoch cfg)

/-- The two checkpoint filename forms of train.py lines 545 and 547. -/
inductive CkptName
  | byEpoch (n : Nat)
  | byStep (n : Nat)
deriving DecidableEq, Repr

/-- Renders the filename exactly as the two f-strings of lines 545/547 do. -/
def ckptFileName : CkptName → String
  | .byEpoch n => "checkpoint-epoch-" ++ toString n ++ ".ckpt"
  | .byStep n => "checkpoint-global_step-" ++ toString n ++ ".ckpt"

/-- A value stored in the saved checkpoint dictionary: either an integer
(epoch / global step) or one of the two networks' state dictionaries
(whose tensor contents are outside this model). -/
inductive RecordValue
  | natV (n : Nat)
  | garmState
  | vtonState
deriving DecidableEq, Repr

/-- The dictionary built at train.py lines 538-543: epoch, global step and
the two state dictionaries, nothing else (in particular no optimizer state). -/
def checkpointRecord (epoch globalStep : Nat) : List (String × RecordValue) :=
  [("epoch", RecordValue.natV epoch),
   ("global_step", RecordValue.natV globalStep),
   ("unet_garm_state_dict", RecordValue.garmState),
   ("unet_vton_state_dict", RecordValue.vtonState)]

/-- One processed batch of the training loop, as observed on the main
process: the epoch index, the batch index within the epoch (`step` of the
`enumerate`), the global step counter value after the increment of line
526, and the checkpoint written at lines 536-547 (if any). -/
structure BatchEvent where
  epoch : Nat
  stepIdx : Nat
  globalStep : Nat
  saved : Option (CkptName × List (String × RecordValue))
deriving DecidableEq, Repr

/-- The body of the inner batch loop (train.py lines 395-600) restricted to
the bookkeeping state: increment `global_step` (line 526) and, when
`global_step % checkpointing_steps == 0` (line 536), save the record of
lines 538-543 under the epoch-keyed name if this is the last batch of the
epoch, else under the step-keyed name (lines 544-547). -/
def stepBody (cfg : TrainConfig) (epoch stepIdx gstep : Nat) : BatchEvent :=
  let gstep1 := gstep + 1
  let saved :=
    if gstep1 % cfg.checkpointingSteps = 0 then
      let record := checkpointRecord epoch gstep1
      if stepIdx = cfg.dataloaderLen - 1 then
        some (CkptName.byEpoch (epoch + 1), record)
      else
        some (CkptName.byStep gstep1, record)
    else none
  ⟨epoch, stepIdx, gstep1, saved⟩

/-- The inner `for step, batch in enumerate(train_dataloader)` loop: at most
`rem` batches remain in the epoch; after each batch, `if global_step >=
max_train_steps: break` (train.py lines 602-603) exits this loop only. -/
def batchLoop (cfg : TrainConfig) (epoch : Nat) : Nat → Nat → Nat → List BatchEvent
  | 0, _, _ => []
  | rem + 1, stepIdx, gstep =>
    let e := stepBody cfg epoch stepIdx gstep
    if cfg.maxTrainSteps ≤ gstep + 1 then [e]
    else e :: batchLoop cfg epoch rem (stepIdx + 1) (gstep + 1)

/-- The outer `for epoch in range(first_epoch, num_train_epochs)` loop
(train.py line 389): the `break` of line 603 does not terminate it, so
every remaining epoch re-enters the batch loop. -/
def epochLoop (cfg : TrainConfig) : Nat → Nat → Nat → List BatchEvent
  | 0, _, _ => []
  | n + 1, epoch, gstep =>
    let t := batchLoop cfg epoch cfg.dataloaderLen 0 gstep
    t ++ epochLoop cfg n (epoch + 1) (gstep + t.length)

/-- The full trace of processed batches of one run of `main`'s training
loop, starting from `global_step = 0`, `first_epoch = 0` (lines 379-380). -/
def runTrace (cfg : TrainConfig) : List BatchEvent :=
  epochLoop cfg (numTrainEpochs cfg) 0 0

/-- Number of batches one entry into the batch loop processes when `rem`
batches remain in the epoch and the counter stands at `gstep`. -/
def epochCount (maxSteps rem gstep : Nat) : Nat :=
  if rem = 0 then 0
  else if maxSteps ≤ gstep then 1
  else min rem (maxSteps - gstep)

/-- Total number of batches processed by `n` remaining epochs starting
with counter value `gstep`. -/
def totalCount (maxSteps len : Nat) : Nat → Nat → Nat
  | 0, _ => 0
  | n + 1, gstep =>
    let c := epochCount maxSteps len gstep
    c + totalCount maxSteps len n (gstep + c)

theorem batchLoop_globalSteps (cfg : TrainConfig) (epoch : Nat) :
    ∀ rem stepIdx gstep,
      (batchLoop cfg epoch rem stepIdx gstep).map (fun e => e.globalStep) =
        List.range' (gstep + 1) (epochCount cfg.maxTrainSteps rem gstep) := by
  intro rem
  induction rem with
  | zero => intro stepIdx gstep; simp [batchLoop, epochCount]
  | succ r ih =>
    intro stepIdx gstep
    by_cases h : cfg.maxTrainSteps ≤ gstep + 1
    · have hb : batchLoop cfg epoch (r + 1) stepIdx gstep =
          [stepBody cfg epoch stepIdx gstep] := by
        simp [batchLoop, h]
      have hc : epochCount cfg.maxTrainSteps (r + 1) gstep = 1 := by
        unfold epochCount
        rw [if_neg (Nat.succ_ne_zero r)]
        by_cases h2 : cfg.maxTrainSteps ≤ gstep
        · rw [if_pos h2]
        · rw [if_neg h2]; omega
      rw [hb, hc]
      rfl
    · have hb : batchLoop cfg epoch (r + 1) stepIdx gstep =
          stepBody cfg epoch stepIdx gstep ::
            batchLoop cfg epoch r (stepIdx + 1) (gstep + 1) := by
        simp [batchLoop, h]
      have hc : epochCount cfg.maxTrainSteps (r + 1) gstep =
          epochCount cfg.maxTrainSteps r (gstep + 1) + 1 := by
        unfold epochCount
        have h2 : ¬ cfg.maxTrainSteps ≤ gstep := by omega
        rw [if_neg (Nat.succ_ne_zero r), if_neg h2]
        by_cases hz : r = 0
        · rw [if_pos hz]; omega
        · rw [if_neg hz, if_neg h]; omega
      rw [hb, hc, List.map_cons, ih (stepIdx + 1) (gstep + 1), List.range'_succ]
      rfl

theorem batchLoop_length (cfg : TrainConfig) (epoch rem stepIdx gstep : Nat) :
    (batchLoop cfg epoch rem stepIdx gstep).length =
      epochCount cfg.maxTrainSteps rem gstep := by
  have h := batchLoop_globalSteps cfg epoch rem stepIdx gstep
  have h1 := congrArg List.length h
  simpa using h1

theorem epochLoop_globalSteps (cfg : TrainConfig) :
    ∀ n epoch gstep,
      (epochLoop cfg n epoch gstep).map (fun e => e.globalStep) =
        List.range' (gstep + 1)
          (totalCount cfg.maxTrainSteps cfg.dataloaderLen n gstep) := by
  intro n
  induction n with
  | zero => intro epoch gstep; simp [epochLoop, totalCount]
  | succ m ih =>
    intro epoch gstep
    rw [epochLoop]
    simp only [List.map_append]
    rw [batchLoop_globalSteps cfg epoch cfg.dataloaderLen 0 gstep,
      batchLoop_length cfg epoch cfg.dataloaderLen 0 gstep,
      ih (epoch + 1) (gstep + epochCount cfg.maxTrainSteps cfg.dataloaderLen gstep)]
    show List.range' (gstep + 1) (epochCount cfg.maxTrainSteps cfg.dataloaderLen gstep) ++
        List.range' (gstep + epochCount cfg.maxTrainSteps cfg.dataloaderLen gstep + 1) _ = _
    have harr : gstep + epochCount cfg.maxTrainSteps cfg.dataloaderLen gstep + 1 =
        (gstep + 1) + epochCount cfg.maxTrainSteps cfg.dataloaderLen gstep := by omega
    rw [harr, List.range'_append_1]
    rw [totalCount]
    congr 1
    omega

theorem totalCount_closed (maxSteps len : Nat) (hlen : 1 ≤ len) :
    ∀ n gstep,
      totalCount maxSteps len n gstep =
        min (n * len) (maxSteps - gstep) + (n - ceilDiv (maxSteps - gstep) len) := by
  intro n
  induction n with
  | zero => intro gstep; simp [totalCount]
  | succ m ih =>
    intro gstep
    rw [totalCount]
    by_cases hdone : maxSteps ≤ gstep
    · have hc : epochCount maxSteps len gstep = 1 := by
        unfold epochCount
        rw [if_neg (by omega : ¬ (len = 0)), if_pos hdone]
      rw [hc, ih (gstep + 1)]
      have h0 : maxSteps - gstep = 0 := by omega
      have h1 : maxSteps - (gstep + 1) = 0 := by omega
      rw [h0, h1, ceilDiv_zero]
      simp only [Nat.min_zero, Nat.zero_add, Nat.sub_zero]
      omega
    · have hrem : 1 ≤ maxSteps - gstep := by omega
      by_cases hfit : maxSteps - gstep ≤ len
      · have hc : epochCount maxSteps len gstep = maxSteps - gstep := by
          unfold epochCount
          rw [if_neg (by omega : ¬ (len = 0)), if_neg hdone]
          omega
        rw [hc, ih (gstep + (maxSteps - gstep))]
        have h0 : maxSteps - (gstep + (maxSteps - gstep)) = 0 := by omega
        rw [h0, ceilDiv_zero]
        have hq : ceilDiv (maxSteps - gstep) len = 1 :=
          ceilDiv_eq_one _ _ hrem hfit
        rw [hq]
        have hmul : (m + 1) * len = m * len + len := by ring
        omega
      · have hc : epochCount maxSteps len gstep = len := by
          unfold epochCount
          rw [if_neg (by omega : ¬ (len = 0)), if_neg hdone]
          omega
        rw [hc, ih (gstep + len)]
        have h0 : maxSteps - (gstep + len) = maxSteps - gstep - len := by omega
        rw [h0]
        have hq : ceilDiv (maxSteps - gstep) len =
            ceilDiv (maxSteps - gstep - len) len + 1 :=
          ceilDiv_sub _ _ (by omega) (by omega)
        rw [hq]
        have hmul : (m + 1) * len = m * len + len := by ring
        omega

theorem one_le_ceilDiv (a b : Nat) (ha : 1 ≤ a) (hb : 1 ≤ b) :
    1 ≤ ceilDiv a b := by
  unfold ceilDiv
  rw [Nat.le_div_iff_mul_le hb]
  omega

theorem max_le_epochs_mul_len (cfg : TrainConfig)
    (hlen : 1 ≤ cfg.dataloaderLen) (hacc : 1 ≤ cfg.gradientAccumulationSteps) :
    cfg.maxTrainSteps ≤ numTrainEpochs cfg * cfg.dataloaderLen := by
  have hu : 1 ≤ numUpdateStepsPerEpoch cfg := one_le_ceilDiv _ _ hlen hacc
  have h1 : cfg.maxTrainSteps ≤ numTrainEpochs cfg * numUpdateStepsPerEpoch cfg :=
    le_ceilDiv_mul _ _ hu
  have h2 : numUpdateStepsPerEpoch cfg ≤ cfg.dataloaderLen :=
    ceilDiv_le_self _ _ hacc
  calc cfg.maxTrainSteps ≤ numTrainEpochs cfg * numUpdateStepsPerEpoch cfg := h1
    _ ≤ numTrainEpochs cfg * cfg.dataloaderLen := Nat.mul_le_mul_left _ h2

theorem runTrace_globalSteps (cfg : TrainConfig)
    (hlen : 1 ≤ cfg.dataloaderLen) (hacc : 1 ≤ cfg.gradientAccumulationSteps) :
    (runTrace cfg).map (fun e => e.globalStep) =
      List.range' 1 (cfg.maxTrainSteps +
        (numTrainEpochs cfg - ceilDiv cfg.maxTrainSteps cfg.dataloaderLen)) := by
  rw [runTrace, epochLoop_globalSteps]
  congr 1
  rw [totalCount_closed _ _ hlen]
  have hsub : cfg.maxTrainSteps - 0 = cfg.maxTrainSteps := by omega
  rw [hsub]
  have hmin : min (numTrainEpochs cfg * cfg.dataloaderLen) cfg.maxTrainSteps =
      cfg.maxTrainSteps :=
    Nat.min_eq_right (max_le_epochs_mul_len cfg hlen hacc)
  rw [hmin]

/-- Every event of the batch loop is the output of `stepBody` at some
batch index and pre-increment counter value. -/
theorem batchLoop_mem (cfg : TrainConfig) (epoch : Nat) :
    ∀ rem stepIdx gstep e, e ∈ batchLoop cfg epoch rem stepIdx gstep →
      ∃ i g, e = stepBody cfg epoch i g := by
  intro rem
  induction rem with
  | zero => intro i g e he; simp [batchLoop] at he
  | succ r ih =>
    intro i g e he
    by_cases h : cfg.maxTrainSteps ≤ g + 1
    · rw [show batchLoop cfg epoch (r + 1) i g = [stepBody cfg epoch i g] from
        by simp [batchLoop, h]] at he
      rw [List.mem_singleton] at he
      exact ⟨i, g, he⟩
    · rw [show batchLoop cfg epoch (r + 1) i g = stepBody cfg epoch i g ::
          batchLoop cfg epoch r (i + 1) (g + 1) from by simp [batchLoop, h]] at he
      rcases List.mem_cons.mp he with h1 | h1
      · exact ⟨i, g, h1⟩
      · exact ih (i + 1) (g + 1) e h1

theorem epochLoop_mem (cfg : TrainConfig) :
    ∀ n epoch gstep e, e ∈ epochLoop cfg n epoch gstep →
      ∃ ep i g, e = stepBody cfg ep i g := by
  intro n
  induction n with
  | zero => intro ep g0 e he; simp [epochLoop] at he
  | succ m ih =>
    intro ep g0 e he
    rw [epochLoop] at he
    rcases List.mem_append.mp he with h1 | h1
    · rcases batchLoop_mem cfg ep cfg.dataloaderLen 0 g0 e h1 with ⟨i, g, hg⟩
      exact ⟨ep, i, g, hg⟩
    · exact ih (ep + 1) _ e h1

/-- Every event of the whole run is the output of `stepBody` at some epoch,
batch index and pre-increment counter value. -/
theorem runTrace_mem (cfg : TrainConfig) (e : BatchEvent) (he : e ∈ runTrace cfg) :
    ∃ ep i g, e = stepBody cfg ep i g :=
  epochLoop_mem cfg (numTrainEpochs cfg) 0 0 e he

theorem stepBody_epoch (cfg : TrainConfig) (ep i g : Nat) :
    (stepBody cfg ep i g).epoch = ep := rfl

theorem stepBody_stepIdx (cfg : TrainConfig) (ep i g : Nat) :
    (stepBody cfg ep i g).stepIdx = i := rfl

theorem stepBody_globalStep (cfg : TrainConfig) (ep i g : Nat) :
    (stepBody cfg ep i g).globalStep = g + 1 := rfl

theorem stepBody_saved (cfg : TrainConfig) (ep i g : Nat) :
    (stepBody cfg ep i g).saved =
      if (g + 1) % cfg.checkpointingSteps = 0 then
        some ((if i = cfg.dataloaderLen - 1 then CkptName.byEpoch (ep + 1)
               else CkptName.byStep (g + 1)),
              checkpointRecord ep (g + 1))
      else none := by
  unfold stepBody
  by_cases hk : (g + 1) % cfg.checkpointingSteps = 0
  · rw [if_pos hk]
    by_cases hi : i = cfg.dataloaderLen - 1
    · simp only [hk, hi, if_pos rfl, if_true]
    · simp only [hk, if_true, hi, if_false, if_neg hi]
  · simp only [hk, if_false, if_neg hk]

/-! ### Classifier-free-guidance dropout (train.py lines 462-464)

`mask = drop_image_embeds > 0`, broadcast over the embedding shape, then
`encoder_hidden_states[mask] = 0`: an example's whole embedding is zeroed
when its drop indicator is positive; all other rows are left untouched.
The `[bs, 1, 768]` tensor is modelled as one feature list per example. -/

def applyCfgDropout (dropImageEmbeds : List Int) (hidden : List (List Int)) :
    List (List Int) :=
  (dropImageEmbeds.zip hidden).map
    (fun p => if 0 < p.1 then p.2.map (fun _ => 0) else p.2)

/-! ### Checkpoint loading (train.py lines 219-237)

`torch.load` yields either a bare state dictionary or a wrapper holding it
under the key `"state_dict"` (optionally next to a recorded global step);
`load_state_dict(..., strict=False)` merges matching names and returns the
missing/unexpected key lists; `assert len(u) == 0` then makes any
unexpected key fatal. -/

/-- A state dictionary: parameter names mapped to (abstracted) tensors. -/
abbrev StateDict := List (String × Int)

def sdKeys (sd : StateDict) : List String := sd.map Prod.fst

/-- PyTorch `Module.load_state_dict(sd, strict=False)`: every model entry
whose name occurs in `sd` takes the checkpoint value, all other entries
keep their values; returns the updated model together with the missing
keys (model names absent from `sd`) and the unexpected keys (`sd` names
absent from the model). -/
def loadStateDictNonStrict (model sd : StateDict) :
    StateDict × List String × List String :=
  (model.map (fun kv =>
      match sd.lookup kv.1 with
      | some w => (kv.1, w)
      | none => kv),
   (sdKeys model).filter (fun k => decide (k ∉ sdKeys sd)),
   (sdKeys sd).filter (fun k => decide (k ∉ sdKeys model)))

/-- The deserialized content of a checkpoint file: a bare state mapping, or
a wrapper carrying the mapping under `"state_dict"` (possibly alongside a
recorded global step). -/
inductive CheckpointContent
  | bare (sd : StateDict)
  | wrapped (globalStep : Option Nat) (sd : StateDict)

/-- `state_dict = ckpt["state_dict"] if "state_dict" in ckpt else ckpt`
(train.py lines 223/233). -/
def extractStateDict : CheckpointContent → StateDict
  | .bare sd => sd
  | .wrapped _ sd => sd

/-- Lines 219-227 (and the identical 229-237): merge the checkpoint into
the model with `strict=False`, then `assert len(u) == 0`. -/
def loadUnetCheckpoint (model : StateDict) (c : CheckpointContent) :
    Except String StateDict :=
  let sd := extractStateDict c
  let r := loadStateDictNonStrict model sd
  if r.2.2.length = 0 then .ok r.1
  else .error "AssertionError: len(u) == 0"

/-! ### Regression target and forward pass (train.py lines 469-474, 486) -/

/-- Lines 469-474: `"epsilon"` takes the sampled noise as target,
`"v_prediction"` raises `NotImplementedError`, anything else raises
`ValueError`. -/
def getTarget (predictionType : String) (noise : Int) : Except String Int :=
  if predictionType = "epsilon" then .ok noise
  else if predictionType = "v_prediction" then .error "NotImplementedError"
  else .error ("Unknown prediction type " ++ predictionType)

/-- Outcome of the target-selection / forward-pass fragment of one step. -/
inductive StepStage
  | raisedBeforeForward (msg : String)
  | forwardCompleted (target modelPred : Int)
deriving DecidableEq, Repr

/-- The target of lines 469-474 is computed before the `unet_vton` forward
call of line 486, so a non-`"epsilon"` prediction type raises before any
forward pass is attempted. -/
def targetThenForward (predictionType : String) (noise unetForward : Int) :
    StepStage :=
  match getTarget predictionType noise with
  | .error msg => .raisedBeforeForward msg
  | .ok t => .forwardCompleted t unetForward

/-! ### Pretrained weight sources (train.py lines 98-99, 200-215) -/

/-- Module-level constant of train.py line 98. -/
def UNET_PATH : String := "../checkpoints/ootd/ootd_hd/checkpoint-36000"

/-- Module-level constant of train.py line 99. -/
def MODEL_PATH : String := "../checkpoints/ootd"

/-- The `(root directory, subfolder)` pair handed to `from_pretrained`. -/
structure PretrainedSource where
  root : String
  subfolder : String
deriving DecidableEq, Repr

/-- Line 200: `AutoencoderKL.from_pretrained(pretrained_model_path, subfolder="vae")`. -/
def vaeSource (pretrainedModelPath : String) : PretrainedSource :=
  ⟨pretrainedModelPath, "vae"⟩

/-- Lines 203-208: `UNetGarm2DConditionModel.from_pretrained(UNET_PATH,
subfolder="unet_garm", ...)`; the argument is the hardcoded constant, not
`pretrained_model_path`. -/
def unetGarmSource (pretrainedModelPath : String) : PretrainedSource :=
  ⟨UNET_PATH, "unet_garm"⟩

/-- Lines 210-215: `UNetVton2DConditionModel.from_pretrained(UNET_PATH,
subfolder="unet_vton", ...)`. -/
def unetVtonSource (pretrainedModelPath : String) : PretrainedSource :=
  ⟨UNET_PATH, "unet_vton"⟩

/-- Lines 219-227: the checkpoint override applies only when the
checkpoint path parameter is nonempty (`if unet_garm_checkpoint_path != ""`). -/
def setupUnetWeights (base : StateDict) (checkpointPath : String)
    (c : CheckpointContent) : Except String StateDict :=
  if checkpointPath = "" then .ok base else loadUnetCheckpoint base c

/-! ### Trainable parameters and the optimizer step
(train.py lines 246-247, 257, 262-268, 500/518)

Both networks are flagged `requires_grad_(True)`, but line 257 collects
`trainable_params` from `unet_vton.parameters()` only, and the `AdamW`
optimizer of line 262 is constructed over exactly that list; an optimizer
step mutates exactly the tensors held by the optimizer. -/

inductive NetOwner
  | garm
  | vton
deriving DecidableEq, Repr

/-- One network parameter tensor: which network owns it, its name, its
`requires_grad` flag and its (abstracted) value. -/
structure NetParam where
  owner : NetOwner
  name : String
  requiresGrad : Bool
  value : Int
deriving DecidableEq, Repr

/-- The parameter collections of the two networks. -/
structure ModelsState where
  garmParams : List NetParam
  vtonParams : List NetParam
deriving DecidableEq, Repr

/-- Lines 246-247: `unet_garm.requires_grad_(True)`;
`unet_vton.requires_grad_(True)`. -/
def setTrainable (s : ModelsState) : ModelsState :=
  ⟨s.garmParams.map (fun p => { p with requiresGrad := true }),
   s.vtonParams.map (fun p => { p with requiresGrad := true })⟩

/-- Line 257: `trainable_params = list(filter(lambda p: p.requires_grad,
unet_vton.parameters()))` — only the try-on network's parameters are
collected. -/
def trainableParams (s : ModelsState) : List NetParam :=
  s.vtonParams.filter (fun p => p.requiresGrad)

/-- One `optimizer.step()` (line 500 / 518): the optimizer was constructed
over `trainableParams s` (line 262), so exactly the tensors in that list
are updated in place. -/
def optimizerStep (update : Int → Int) (s : ModelsState) : ModelsState :=
  ⟨s.garmParams.map (fun p =>
      if p ∈ trainableParams s then { p with value := update p.value } else p),
   s.vtonParams.map (fun p =>
      if p ∈ trainableParams s then { p with value := update p.value } else p)⟩

/-! ### Sentinel resolution of step counts (train.py lines 323-329) -/

/-- Lines 323-325: `if max_train_steps == -1: assert max_train_epoch != -1;
max_train_steps = max_train_epoch * len(train_dataloader)`. -/
def resolveMaxTrainSteps (maxTrainSteps maxTrainEpoch : Int)
    (dataloaderLen : Nat) : Except String Int :=
  if maxTrainSteps = -1 then
    if maxTrainEpoch = -1 then .error "AssertionError: max_train_epoch != -1"
    else .ok (maxTrainEpoch * dataloaderLen)
  else .ok maxTrainSteps

/-- Lines 327-329: the identical rule for `checkpointing_steps` and
`checkpointing_epochs`. -/
def resolveCheckpointingSteps (checkpointingSteps checkpointingEpochs : Int)
    (dataloaderLen : Nat) : Except String Int :=
  if checkpointingSteps = -1 then
    if checkpointingEpochs = -1 then
      .error "AssertionError: checkpointing_epochs != -1"
    else .ok (checkpointingEpochs * dataloaderLen)
  else .ok checkpointingSteps

/-! ### Helper lemmas -/

theorem lookup_eq_none_of_not_mem {β : Type} (sd : List (String × β)) (k : String)
    (h : k ∉ sd.map Prod.fst) : sd.lookup k = none := by
  induction sd with
  | nil => rfl
  | cons kv tl ih =>
    simp only [List.map_cons, List.mem_cons] at h
    push_neg at h
    rw [List.lookup_cons]
    have hne : (k == kv.1) = false := by
      rw [beq_eq_false_iff_ne]
      exact h.1
    rw [hne]
    exact ih h.2

theorem map_eq_self_of_mem {α : Type} (l : List α) (f : α → α)
    (h : ∀ a ∈ l, f a = a) : l.map f = l := by
  induction l with
  | nil => rfl
  | cons a tl ih =>
    rw [List.map_cons, h a (List.mem_cons_self a tl),
      ih (fun b hb => h b (List.mem_cons_of_mem a hb))]

/-! ### Claims -/

/-- C1 (amended): the global step counter starts at 0 and is incremented by
exactly 1 after each processed batch, so the trace of counter values is the
contiguous range from 1; the `break` of line 603 exits only the batch loop,
so the loop processes `max_train_steps + (num_train_epochs -
ceil(max_train_steps / dataloader_len))` batches in total — exactly
`max_train_steps` (no overshoot) when `gradient_accumulation_steps = 1`,
but one extra batch per surplus epoch otherwise. -/
theorem C1_global_step_trace (cfg : TrainConfig)
    (hlen : 1 ≤ cfg.dataloaderLen) (hacc : 1 ≤ cfg.gradientAccumulationSteps) :
    (runTrace cfg).map (fun e => e.globalStep) =
      List.range' 1 (cfg.maxTrainSteps +
        (numTrainEpochs cfg - ceilDiv cfg.maxTrainSteps cfg.dataloaderLen)) ∧
    (cfg.gradientAccumulationSteps = 1 →
      (runTrace cfg).length = cfg.maxTrainSteps) := by
  refine ⟨runTrace_globalSteps cfg hlen hacc, fun h1 => ?_⟩
  have hmap := runTrace_globalSteps cfg hlen hacc
  have hlen2 := congrArg List.length hmap
  simp only [List.length_map, List.length_range'] at hlen2
  rw [hlen2]
  have heq : numTrainEpochs cfg = ceilDiv cfg.maxTrainSteps cfg.dataloaderLen := by
    unfold numTrainEpochs numUpdateStepsPerEpoch
    rw [h1]
    congr 1
    unfold ceilDiv
    omega
  rw [heq]
  omega

/-- C1 witness: a run with dataloader length 5, accumulation 1 and max 3
processes exactly the steps 1, 2, 3. -/
theorem C1_global_step_trace_witness :
    (runTrace ⟨5, 1, 3, 100⟩).map (fun e => e.globalStep) =
      List.range' 1 (3 + (numTrainEpochs ⟨5, 1, 3, 100⟩ - ceilDiv 3 5)) ∧
    ((1 : Nat) = 1 → (runTrace ⟨5, 1, 3, 100⟩).length = 3) :=
  C1_global_step_trace ⟨5, 1, 3, 100⟩ (by decide) (by decide)

/-- C1 counterexample: with dataloader length 2,
`gradient_accumulation_steps = 2` and `max_train_steps = 2`,
`num_train_epochs = 2` while the counter reaches the maximum already in
epoch 0; the `break` does not exit the epoch loop, so epoch 1 processes a
third batch and the counter passes the maximum — the run does not
terminate at the first step at which the counter reaches
`max_train_steps`. -/
theorem C1_overshoot_counterexample :
    (runTrace ⟨2, 2, 2, 1000⟩).map (fun e => e.globalStep) = [1, 2, 3] ∧
    ¬ (runTrace ⟨2, 2, 2, 1000⟩).length = 2 := by decide

/-- C2 (amended): the optimizer step mutates in place exactly the
parameters of the try-on denoising network (`unet_vton`); the garment
network's parameters, although flagged `requires_grad = True`, are not
among the optimized trainable parameters (line 257 collects only
`unet_vton.parameters()`), so the optimizer step leaves them unchanged. -/
theorem C2_optimizer_frame (update : Int → Int) (s : ModelsState)
    (hg : ∀ p ∈ s.garmParams, p.owner = NetOwner.garm)
    (hv : ∀ p ∈ s.vtonParams, p.owner = NetOwner.vton) :
    (optimizerStep update (setTrainable s)).garmParams =
      (setTrainable s).garmParams ∧
    (optimizerStep update (setTrainable s)).vtonParams =
      (setTrainable s).vtonParams.map
        (fun p => { p with value := update p.value }) ∧
    (∀ p ∈ trainableParams (setTrainable s), p.owner = NetOwner.vton) := by
  have hv2 : ∀ p ∈ (setTrainable s).vtonParams, p.owner = NetOwner.vton := by
    intro p hp
    rcases List.mem_map.mp hp with ⟨q, hq, rfl⟩
    exact hv q hq
  have htrain : ∀ p ∈ trainableParams (setTrainable s), p.owner = NetOwner.vton := by
    intro p hp
    exact hv2 p (List.mem_filter.mp hp).1
  refine ⟨?_, ?_, htrain⟩
  · unfold optimizerStep
    apply map_eq_self_of_mem
    intro p hp
    have hpo : p.owner = NetOwner.garm := by
      rcases List.mem_map.mp hp with ⟨q, hq, rfl⟩
      exact hg q hq
    rw [if_neg]
    intro hmem
    have := htrain p hmem
    rw [hpo] at this
    exact NetOwner.noConfusion this
  · unfold optimizerStep
    apply List.map_congr_left
    intro p hp
    rw [if_pos]
    unfold trainableParams
    rw [List.mem_filter]
    refine ⟨hp, ?_⟩
    rcases List.mem_map.mp hp with ⟨q, hq, rfl⟩
    rfl

/-- C2 witness: with one parameter per network, an optimizer step leaves
the garment parameter untouched and updates the try-on parameter. -/
theorem C2_optimizer_frame_witness :
    (optimizerStep (fun v => v + 1)
        (setTrainable ⟨[⟨NetOwner.garm, "conv_in.weight", true, 5⟩],
                        [⟨NetOwner.vton, "conv_in.weight", true, 7⟩]⟩)).garmParams =
      (setTrainable ⟨[⟨NetOwner.garm, "conv_in.weight", true, 5⟩],
                     [⟨NetOwner.vton, "conv_in.weight", true, 7⟩]⟩).garmParams ∧
    (optimizerStep (fun v => v + 1)
        (setTrainable ⟨[⟨NetOwner.garm, "conv_in.weight", true, 5⟩],
                        [⟨NetOwner.vton, "conv_in.weight", true, 7⟩]⟩)).vtonParams =
      (setTrainable ⟨[⟨NetOwner.garm, "conv_in.weight", true, 5⟩],
                     [⟨NetOwner.vton, "conv_in.weight", true, 7⟩]⟩).vtonParams.map
        (fun p => { p with value := p.value + 1 }) ∧
    (∀ p ∈ trainableParams
        (setTrainable ⟨[⟨NetOwner.garm, "conv_in.weight", true, 5⟩],
                       [⟨NetOwner.vton, "conv_in.weight", true, 7⟩]⟩),
      p.owner = NetOwner.vton) :=
  C2_optimizer_frame (fun v => v + 1)
    ⟨[⟨NetOwner.garm, "conv_in.weight", true, 5⟩],
     [⟨NetOwner.vton, "conv_in.weight", true, 7⟩]⟩
    (by decide) (by decide)

/-- C2 counterexample: the garment network's parameter is not among the
optimized trainable parameters, and the optimizer step changes the try-on
network's parameter value while the garment network's is bit-identical
afterwards — refuting that both networks are optimized. -/
theorem C2_garm_not_trainable_counterexample :
    (⟨NetOwner.garm, "conv_in.weight", true, 5⟩ : NetParam) ∉
      trainableParams (setTrainable ⟨[⟨NetOwner.garm, "conv_in.weight", true, 5⟩],
                                     [⟨NetOwner.vton, "conv_in.weight", true, 7⟩]⟩) ∧
    (optimizerStep (fun v => v + 1)
        (setTrainable ⟨[⟨NetOwner.garm, "conv_in.weight", true, 5⟩],
                        [⟨NetOwner.vton, "conv_in.weight", true, 7⟩]⟩)).garmParams =
      [⟨NetOwner.garm, "conv_in.weight", true, 5⟩] ∧
    (optimizerStep (fun v => v + 1)
        (setTrainable ⟨[⟨NetOwner.garm, "conv_in.weight", true, 5⟩],
                        [⟨NetOwner.vton, "conv_in.weight", true, 7⟩]⟩)).vtonParams =
      [⟨NetOwner.vton, "conv_in.weight", true, 8⟩] := by decide

/-- C3: on the main process a checkpoint is written at a processed batch
exactly when the incremented global step counter is a multiple of the
checkpoint interval; and in the run with interval 100 and
`max_train_steps = 250` (accumulation 1), checkpoints are written exactly
after steps 100 and 200. -/
theorem C3_checkpoint_iff_multiple (cfg : TrainConfig)
    (hck : 0 < cfg.checkpointingSteps)
    (e : BatchEvent) (he : e ∈ runTrace cfg) :
    (e.saved.isSome = true ↔ e.globalStep % cfg.checkpointingSteps = 0) ∧
    ((runTrace ⟨250, 1, 250, 100⟩).filter (fun x => x.saved.isSome)).map
      (fun x => x.globalStep) = [100, 200] := by
  constructor
  · rcases runTrace_mem cfg e he with ⟨ep, i, g, rfl⟩
    rw [stepBody_saved, stepBody_globalStep]
    by_cases hk : (g + 1) % cfg.checkpointingSteps = 0
    · rw [if_pos hk]
      simp [hk]
    · rw [if_neg hk]
      simp [hk]
  · decide

/-- C3 witness: in the run with dataloader length 3, interval 2 and max 6,
the event of step 2 carries a checkpoint and 2 is a multiple of 2. -/
theorem C3_checkpoint_iff_multiple_witness :
    ((some (CkptName.byStep 2, checkpointRecord 0 2) :
        Option (CkptName × List (String × RecordValue))).isSome = true ↔
      2 % 2 = 0) ∧
    ((runTrace ⟨250, 1, 250, 100⟩).filter (fun x => x.saved.isSome)).map
      (fun x => x.globalStep) = [100, 200] :=
  C3_checkpoint_iff_multiple ⟨3, 1, 6, 2⟩ (by decide)
    ⟨0, 1, 2, some (CkptName.byStep 2, checkpointRecord 0 2)⟩ (by decide)

/-- C4: for every example of a batch, the classifier-free-guidance dropout
replaces the example's conditioning embedding by an all-zero vector of the
same length exactly when its drop indicator is positive, and returns the
embedding unchanged otherwise. -/
theorem C4_cfg_dropout :
    ∀ (drop : List Int) (hidden : List (List Int)) (i : Nat) (d : Int)
      (e : List Int),
      drop.get? i = some d → hidden.get? i = some e →
      (applyCfgDropout drop hidden).get? i =
        some (if 0 < d then List.replicate e.length 0 else e) := by
  intro drop
  induction drop with
  | nil => intro hidden i d e hd he; simp at hd
  | cons d0 ds ih =>
    intro hidden i d e hd he
    cases hidden with
    | nil => simp at he
    | cons e0 es =>
      cases i with
      | zero =>
        simp only [List.get?_cons_zero, Option.some_inj] at hd he
        subst hd
        subst he
        show some (if 0 < d0 then e0.map (fun _ => (0 : Int)) else e0) =
          some (if 0 < d0 then List.replicate e0.length 0 else e0)
        by_cases hp : 0 < d0
        · rw [if_pos hp, if_pos hp, List.map_const']
        · rw [if_neg hp, if_neg hp]
      | succ j =>
        simp only [List.get?_cons_succ] at hd he
        have := ih es j d e hd he
        simpa [applyCfgDropout] using this

/-- C4 witness: with indicators `[1, 0]`, the first embedding is zeroed
uniformly and the second is returned bit-identical. -/
theorem C4_cfg_dropout_witness :
    (applyCfgDropout [1, 0] [[3, 4], [5, 6]]).get? 0 =
      some (if (0 : Int) < 1 then List.replicate 2 0 else [3, 4]) ∧
    (applyCfgDropout [1, 0] [[3, 4], [5, 6]]).get? 1 =
      some (if (0 : Int) < 0 then List.replicate 2 0 else [5, 6]) :=
  ⟨C4_cfg_dropout [1, 0] [[3, 4], [5, 6]] 0 1 [3, 4] (by decide) (by decide),
   C4_cfg_dropout [1, 0] [[3, 4], [5, 6]] 1 0 [5, 6] (by decide) (by decide)⟩

/-- C5: loading a checkpoint (bare mapping or `"state_dict"` wrapper)
succeeds exactly when its key set is a subset of the model's parameter
names, and on success every model parameter whose name is absent from the
checkpoint keeps its pre-load value; an unexpected key aborts with the
assertion of line 227/237. -/
theorem C5_checkpoint_load (model : StateDict) (c : CheckpointContent) :
    ((loadUnetCheckpoint model c).isOk = true ↔
      ∀ k ∈ sdKeys (extractStateDict c), k ∈ sdKeys model) ∧
    (∀ k v, (k, v) ∈ model → k ∉ sdKeys (extractStateDict c) →
      ∀ m2, loadUnetCheckpoint model c = .ok m2 → (k, v) ∈ m2) := by
  have hrepr : loadUnetCheckpoint model c =
      if ((sdKeys (extractStateDict c)).filter
          (fun k => decide (k ∉ sdKeys model))).length = 0
      then .ok (model.map (fun kv =>
        match (extractStateDict c).lookup kv.1 with
        | some w => (kv.1, w)
        | none => kv))
      else .error "AssertionError: len(u) == 0" := rfl
  constructor
  · rw [hrepr]
    by_cases hz : ((sdKeys (extractStateDict c)).filter
        (fun k => decide (k ∉ sdKeys model))).length = 0
    · rw [if_pos hz]
      simp only [Except.isOk, Except.toBool, true_iff]
      rw [List.length_eq_zero, List.filter_eq_nil_iff] at hz
      intro k hk
      have := hz k hk
      simpa using this
    · rw [if_neg hz]
      simp only [Except.isOk, Except.toBool]
      constructor
      · intro hcontra
        exact Bool.noConfusion hcontra
      · intro hall
        exfalso
        apply hz
        rw [List.length_eq_zero, List.filter_eq_nil_iff]
        intro k hk
        simpa using hall k hk
  · intro k v hkv hknot m2 hok
    rw [hrepr] at hok
    by_cases hz : ((sdKeys (extractStateDict c)).filter
        (fun k => decide (k ∉ sdKeys model))).length = 0
    · rw [if_pos hz] at hok
      injection hok with hok
      subst hok
      apply List.mem_map.mpr
      refine ⟨(k, v), hkv, ?_⟩
      rw [lookup_eq_none_of_not_mem _ _ hknot]
    · rw [if_neg hz] at hok
      exact Except.noConfusion hok

/-- C5 witness: loading `{a ↦ 9}` into a model with parameters `a, b`
succeeds and leaves `b` at its pre-load value. -/
theorem C5_checkpoint_load_witness :
    (loadUnetCheckpoint [("a", 1), ("b", 2)]
        (CheckpointContent.bare [("a", 9)])).isOk = true ∧
    ("b", (2 : Int)) ∈ [("a", (9 : Int)), ("b", 2)] :=
  ⟨(C5_checkpoint_load [("a", 1), ("b", 2)]
      (CheckpointContent.bare [("a", 9)])).1.mpr (by decide),
   (C5_checkpoint_load [("a", 1), ("b", 2)]
      (CheckpointContent.bare [("a", 9)])).2 "b" 2 (by decide) (by decide)
      [("a", 9), ("b", 2)] rfl⟩

/-- C6: with prediction type `"epsilon"` the regression target is the
sampled noise and the forward pass runs; with any other prediction type an
error is raised before the forward pass is attempted. -/
theorem C6_prediction_type (predictionType : String) (noise unetForward : Int) :
    (predictionType = "epsilon" →
      targetThenForward predictionType noise unetForward =
        StepStage.forwardCompleted noise unetForward) ∧
    (predictionType ≠ "epsilon" →
      ∃ msg, targetThenForward predictionType noise unetForward =
        StepStage.raisedBeforeForward msg) := by
  constructor
  · intro h
    subst h
    rfl
  · intro h
    unfold targetThenForward getTarget
    rw [if_neg h]
    by_cases h2 : predictionType = "v_prediction"
    · rw [if_pos h2]
      exact ⟨_, rfl⟩
    · rw [if_neg h2]
      exact ⟨_, rfl⟩

/-- C6 witness: `"epsilon"` completes the forward pass with the noise as
target; `"sample"` raises before the forward pass. -/
theorem C6_prediction_type_witness :
    targetThenForward "epsilon" 5 9 = StepStage.forwardCompleted 5 9 ∧
    (∃ msg, targetThenForward "sample" 5 9 = StepStage.raisedBeforeForward msg) :=
  ⟨(C6_prediction_type "epsilon" 5 9).1 rfl,
   (C6_prediction_type "sample" 5 9).2 (by decide)⟩

/-- C7 (amended): the VAE weights come from subfolder `"vae"` of
`pretrained_model_path`, but the garment and try-on networks are loaded
from subfolders of the hardcoded module-level constant `UNET_PATH`
(`"../checkpoints/ootd/ootd_hd/checkpoint-36000"`), independent of
`pretrained_model_path`; a nonempty explicit checkpoint path overrides
them afterwards, and an empty one leaves the `UNET_PATH` weights as-is. -/
theorem C7_weight_sources (p : String) (base : StateDict) (cp : String)
    (c : CheckpointContent) :
    unetGarmSource p = ⟨UNET_PATH, "unet_garm"⟩ ∧
    unetVtonSource p = ⟨UNET_PATH, "unet_vton"⟩ ∧
    vaeSource p = ⟨p, "vae"⟩ ∧
    (cp = "" → setupUnetWeights base cp c = .ok base) := by
  refine ⟨rfl, rfl, rfl, fun h => ?_⟩
  unfold setupUnetWeights
  rw [if_pos h]

/-- C7 witness: instantiation at a concrete base directory and an empty
checkpoint path. -/
theorem C7_weight_sources_witness :
    unetGarmSource "/models/base" = ⟨UNET_PATH, "unet_garm"⟩ ∧
    unetVtonSource "/models/base" = ⟨UNET_PATH, "unet_vton"⟩ ∧
    vaeSource "/models/base" = ⟨"/models/base", "vae"⟩ ∧
    ("" = "" → setupUnetWeights [("a", 1)] ""
        (CheckpointContent.bare []) = .ok [("a", 1)]) :=
  C7_weight_sources "/models/base" [("a", 1)] "" (CheckpointContent.bare [])

/-- C7 counterexample: with `pretrained_model_path = "/models/base"`, the
VAE is read from that directory but the garment network is read from the
constant `UNET_PATH`, which is not a sub-path of the configured
directory — the unet weights do not come from sub-paths of
`pretrained_model_path`. -/
theorem C7_unet_path_counterexample :
    (unetGarmSource "/models/base").root = UNET_PATH ∧
    (unetVtonSource "/models/base").root = UNET_PATH ∧
    (vaeSource "/models/base").root = "/models/base" ∧
    (unetGarmSource "/models/base").root.data.take "/models/base".data.length ≠
      "/models/base".data := by
  refine ⟨rfl, rfl, rfl, ?_⟩
  decide

/-- C8: every checkpoint written by the loop is keyed by the epoch when
the triggering batch is the last of the epoch (batch index equals the
dataloader length minus 1) and keyed by the global step otherwise; the
`if`-form makes the two naming forms mutually exclusive. -/
theorem C8_checkpoint_filename (cfg : TrainConfig) (e : BatchEvent)
    (he : e ∈ runTrace cfg) (name : CkptName)
    (r : List (String × RecordValue)) (hs : e.saved = some (name, r)) :
    name = (if e.stepIdx = cfg.dataloaderLen - 1
            then CkptName.byEpoch (e.epoch + 1)
            else CkptName.byStep e.globalStep) := by
  rcases runTrace_mem cfg e he with ⟨ep, i, g, rfl⟩
  rw [stepBody_saved] at hs
  rw [stepBody_stepIdx, stepBody_epoch, stepBody_globalStep]
  by_cases hk : (g + 1) % cfg.checkpointingSteps = 0
  · rw [if_pos hk, Option.some_inj, Prod.mk.injEq] at hs
    exact hs.1.symm
  · rw [if_neg hk] at hs
    exact Option.noConfusion hs

/-- C8 witness: in the run with dataloader length 3, interval 2 and max 6,
the checkpoint after step 6 falls on the epoch's last batch and is keyed
by the epoch. -/
theorem C8_checkpoint_filename_witness :
    CkptName.byEpoch 2 =
      (if (2 : Nat) = 3 - 1 then CkptName.byEpoch (1 + 1)
       else CkptName.byStep 6) :=
  C8_checkpoint_filename ⟨3, 1, 6, 2⟩
    ⟨1, 2, 6, some (CkptName.byEpoch 2, checkpointRecord 1 6)⟩ (by decide)
    (CkptName.byEpoch 2) (checkpointRecord 1 6) (by decide)

/-- C9: every checkpoint record written by the loop is exactly the
four-field dictionary {epoch, global step, garment-network state
dictionary, try-on-network state dictionary}; in particular it holds no
optimizer state. -/
theorem C9_checkpoint_record_fields (cfg : TrainConfig) (e : BatchEvent)
    (he : e ∈ runTrace cfg) (name : CkptName)
    (r : List (String × RecordValue)) (hs : e.saved = some (name, r)) :
    r = checkpointRecord e.epoch e.globalStep ∧
    r.map Prod.fst =
      ["epoch", "global_step", "unet_garm_state_dict", "unet_vton_state_dict"] ∧
    r.lookup "optimizer_state_dict" = none := by
  rcases runTrace_mem cfg e he with ⟨ep, i, g, rfl⟩
  rw [stepBody_saved] at hs
  rw [stepBody_epoch, stepBody_globalStep]
  by_cases hk : (g + 1) % cfg.checkpointingSteps = 0
  · rw [if_pos hk, Option.some_inj, Prod.mk.injEq] at hs
    have h2 := hs.2
    subst h2
    exact ⟨rfl, rfl, rfl⟩
  · rw [if_neg hk] at hs
    exact Option.noConfusion hs

/-- C9 witness: the record saved after step 4 of the run with dataloader
length 3, interval 2 and max 6 holds exactly the four fields. -/
theorem C9_checkpoint_record_fields_witness :
    checkpointRecord 1 4 = checkpointRecord 1 4 ∧
    (checkpointRecord 1 4).map Prod.fst =
      ["epoch", "global_step", "unet_garm_state_dict", "unet_vton_state_dict"] ∧
    (checkpointRecord 1 4).lookup "optimizer_state_dict" = none :=
  C9_checkpoint_record_fields ⟨3, 1, 6, 2⟩
    ⟨1, 0, 4, some (CkptName.byStep 4, checkpointRecord 1 4)⟩ (by decide)
    (CkptName.byStep 4) (checkpointRecord 1 4) (by decide)

/-- C10: when `max_train_steps = -1`, the program asserts
`max_train_epoch ≠ -1` before any training step and derives the step count
as `max_train_epoch * len(train_dataloader)`; the analogous rule holds for
`checkpointing_steps = -1` with `checkpointing_epochs`. -/
theorem C10_sentinel_resolution (mts mte cs ce : Int) (len : Nat) :
    (mts = -1 → mte = -1 →
      resolveMaxTrainSteps mts mte len =
        .error "AssertionError: max_train_epoch != -1") ∧
    (mts = -1 → mte ≠ -1 →
      resolveMaxTrainSteps mts mte len = .ok (mte * len)) ∧
    (mts ≠ -1 → resolveMaxTrainSteps mts mte len = .ok mts) ∧
    (cs = -1 → ce = -1 →
      resolveCheckpointingSteps cs ce len =
        .error "AssertionError: checkpointing_epochs != -1") ∧
    (cs = -1 → ce ≠ -1 →
      resolveCheckpointingSteps cs ce len = .ok (ce * len)) ∧
    (cs ≠ -1 → resolveCheckpointingSteps cs ce len = .ok cs) := by
  unfold resolveMaxTrainSteps resolveCheckpointingSteps
  refine ⟨fun h1 h2 => ?_, fun h1 h2 => ?_, fun h1 => ?_,
          fun h1 h2 => ?_, fun h1 h2 => ?_, fun h1 => ?_⟩
  · rw [if_pos h1, if_pos h2]
  · rw [if_pos h1, if_neg h2]
  · rw [if_neg h1]
  · rw [if_pos h1, if_pos h2]
  · rw [if_pos h1, if_neg h2]
  · rw [if_neg h1]

/-- C10 witness: `max_train_steps = -1` with `max_train_epoch = 3` and
dataloader length 10 resolves to 30 steps; both sentinels `-1` trip the
assertion for checkpointing. -/
theorem C10_sentinel_resolution_witness :
    ((-1 : Int) = -1 → (-1 : Int) = -1 →
      resolveMaxTrainSteps (-1) (-1) 10 =
        .error "AssertionError: max_train_epoch != -1") ∧
    ((-1 : Int) = -1 → (-1 : Int) ≠ -1 →
      resolveMaxTrainSteps (-1) (-1) 10 = .ok ((-1) * 10)) ∧
    ((-1 : Int) ≠ -1 → resolveMaxTrainSteps (-1) (-1) 10 = .ok (-1)) ∧
    ((-1 : Int) = -1 → (3 : Int) = -1 →
      resolveCheckpointingSteps (-1) 3 10 =
        .error "AssertionError: checkpointing_epochs != -1") ∧
    ((-1 : Int) = -1 → (3 : Int) ≠ -1 →
      resolveCheckpointingSteps (-1) 3 10 = .ok (3 * 10)) ∧
    ((-1 : Int) ≠ -1 → resolveCheckpointingSteps (-1) 3 10 = .ok (-1)) :=
  C10_sentinel_resolution (-1) (-1) (-1) 3 10

end OOTDTrain
